import Mathlib

/-!
# Verification of the mcp-gemini orchestration loop

A shallow embedding of the two source files of the repository:

* `server.py` — two text-statistics tools, `analyze_text` and
  `count_sentences`, registered on a FastMCP host;
* `client.py` — the Gemini chat orchestrator: schema translation
  (`mcp_tool_to_gemini_function`), tool discovery, and the interactive
  turn loop with its single tool round-trip.

Strings are modelled as Lean `String`/`List Char`; the whitespace set is
the ASCII portion of Python whitespace. The Python `json` module (an
external library) is abstracted as a parameter `jp : String → Option String`
standing for the composite `json.dumps(json.loads t, indent=2)`, returning
`none` exactly when `json.loads` raises `JSONDecodeError`. Operations that
may raise in Python are modelled as `Except Unit` outcomes supplied to the
turn function as data.
-/

/-! ## server.py: character classes -/

/-- Sentence terminators of the regex `[.?!]+` in `count_sentences`. -/
def isTerminatorChar (c : Char) : Bool :=
  c = '.' || c = '?' || c = '!'

/-- ASCII whitespace as recognised by Python `str.split()` / `str.strip()`. -/
def isPySpace (c : Char) : Bool :=
  c = ' ' || c = '\t' || c = '\n' || c = '\r' || c = Char.ofNat 11 || c = Char.ofNat 12

/-! ## server.py: count_sentences -/

/-- Embedding of `re.split` with the pattern `p`-run-plus (for
`count_sentences` the pattern is `[.?!]+`): the string is cut at every
maximal nonempty run of characters satisfying `p`, keeping the (possibly
empty) segments before the first run, between runs, and after the last. -/
def splitRuns (p : Char → Bool) : List Char → List (List Char)
  | [] => [[]]
  | c :: cs =>
    if p c then
      match cs with
      | [] => [[], []]
      | c2 :: cs2 =>
        if p c2 then splitRuns p (c2 :: cs2)
        else [] :: splitRuns p (c2 :: cs2)
    else
      match splitRuns p cs with
      | [] => [[c]]
      | r :: rs => (c :: r) :: rs

/-- Python `str.strip()` on a character list: drop leading and trailing
whitespace. -/
def pyStrip (l : List Char) : List Char :=
  ((l.dropWhile isPySpace).reverse.dropWhile isPySpace).reverse

/-- Truthiness of `s.strip()` in the filter of `count_sentences`. -/
def nonblank (l : List Char) : Bool :=
  !(pyStrip l).isEmpty

/-- Embedding of `server.py`, `count_sentences`:
`len([s for s in re.split(r..., text) if s.strip()])`. -/
def count_sentences (text : String) : Nat :=
  ((splitRuns isTerminatorChar text.toList).filter nonblank).length

/-- Specification-side segmentation: cut at every single terminator
character. It produces the same non-blank segments as maximal-run
splitting, because the extra segments it creates between two adjacent
terminators are empty; the equivalence is proved below and is what lets
the maximal-run description of the spec be checked against the code. -/
def splitEach (p : Char → Bool) : List Char → List (List Char)
  | [] => [[]]
  | c :: cs =>
    if p c then [] :: splitEach p cs
    else
      match splitEach p cs with
      | [] => [[c]]
      | r :: rs => (c :: r) :: rs

/-- The count of the spec sentence for `count_sentences`, formalised over
the single-character segmentation. -/
def countSentencesSpec (text : String) : Nat :=
  ((splitEach isTerminatorChar text.toList).filter nonblank).length

/-! ## server.py: analyze_text -/

/-- Result record of `analyze_text`. -/
structure TextAnalysis where
  word_count : Nat
  char_count : Nat
deriving DecidableEq, Repr

/-- Embedding of Python `str.split()` with no argument: the maximal runs
of non-whitespace characters, in order; no empty tokens are produced. -/
def pySplitWs : List Char → List (List Char)
  | [] => []
  | c :: cs =>
    if isPySpace c then pySplitWs cs
    else
      match cs with
      | [] => [[c]]
      | c2 :: cs2 =>
        if isPySpace c2 then [c] :: pySplitWs (c2 :: cs2)
        else
          match pySplitWs (c2 :: cs2) with
          | [] => [[c]]
          | r :: rs => (c :: r) :: rs

/-- Embedding of `server.py`, `analyze_text`:
`word_count = len(text.split())`, `char_count = len(text)`. -/
def analyze_text (text : String) : TextAnalysis :=
  { word_count := (pySplitWs text.toList).length
    char_count := text.toList.length }

/-- Specification-side token counter: scan left to right, counting the
characters that begin a whitespace-delimited token (a non-space character
at the start of the text or right after a space). `prevSpace` records
whether the previous character was a space (true at the start). -/
def countTokens : List Char → Bool → Nat
  | [], _ => 0
  | c :: cs, prevSpace =>
    if isPySpace c then countTokens cs true
    else (if prevSpace then 1 else 0) + countTokens cs false

/-! ## Facts about stripping and segment counting -/

lemma nonblank_nil : nonblank [] = false := by decide

lemma nonblank_cons_space {c : Char} (r : List Char) (h : isPySpace c = true) :
    nonblank (c :: r) = nonblank r := by
  simp [nonblank, pyStrip, List.dropWhile_cons, h]

lemma nonblank_cons_nonspace {c : Char} (r : List Char) (h : isPySpace c = false) :
    nonblank (c :: r) = true := by
  have hdw : List.dropWhile isPySpace (c :: r) = c :: r := by
    simp [List.dropWhile_cons, h]
  have hne : (c :: r).reverse.dropWhile isPySpace ≠ [] := by
    rw [ne_eq, List.dropWhile_eq_nil_iff]
    push_neg
    exact ⟨c, by simp, by simp [h]⟩
  simp only [nonblank, pyStrip, hdw, Bool.not_eq_true']
  rw [List.isEmpty_eq_false]
  simpa using hne

lemma length_filter_cons (x : List Char) (xs : List (List Char)) :
    ((x :: xs).filter nonblank).length
      = (if nonblank x then 1 else 0) + (xs.filter nonblank).length := by
  rw [List.filter_cons]
  split <;> simp [Nat.add_comm]

lemma splitRuns_cons_neg (p : Char → Bool) {c : Char} (cs : List Char) (h : p c = false) :
    splitRuns p (c :: cs)
      = match splitRuns p cs with
        | [] => [[c]]
        | r :: rs => (c :: r) :: rs := by
  cases cs with
  | nil => simp [splitRuns, h]
  | cons c2 cs2 => simp [splitRuns, h]

lemma splitEach_cons_neg (p : Char → Bool) {c : Char} (cs : List Char) (h : p c = false) :
    splitEach p (c :: cs)
      = match splitEach p cs with
        | [] => [[c]]
        | r :: rs => (c :: r) :: rs := by
  simp [splitEach, h]

/-- Maximal-run splitting and single-character splitting produce the same
first segment, and tails with the same number of non-blank segments. -/
lemma splitRuns_splitEach (p : Char → Bool) :
    ∀ l : List Char, ∃ r t t',
      splitRuns p l = r :: t ∧ splitEach p l = r :: t' ∧
      (t.filter nonblank).length = (t'.filter nonblank).length := by
  intro l
  induction l with
  | nil => exact ⟨[], [], [], rfl, rfl, rfl⟩
  | cons c cs ih =>
    obtain ⟨r, t, t', hr, he, hc⟩ := ih
    cases hpc : p c with
    | true =>
      cases cs with
      | nil =>
        exact ⟨[], [[]], [[]], by simp [splitRuns, hpc], by simp [splitEach, hpc], rfl⟩
      | cons c2 cs2 =>
        cases hpc2 : p c2 with
        | true =>
          have hrnil : r = [] := by
            have h2 : splitEach p (c2 :: cs2) = [] :: splitEach p cs2 := by
              simp [splitEach, hpc2]
            rw [he] at h2
            exact (List.cons_eq_cons.mp h2).1
          refine ⟨[], t, [] :: t', ?_, ?_, ?_⟩
          · rw [show splitRuns p (c :: c2 :: cs2) = splitRuns p (c2 :: cs2) from by
              simp [splitRuns, hpc, hpc2]]
            rw [hr, hrnil]
          · rw [show splitEach p (c :: c2 :: cs2) = [] :: splitEach p (c2 :: cs2) from by
              simp [splitEach, hpc]]
            rw [he, hrnil]
          · simpa [length_filter_cons, nonblank_nil] using hc
        | false =>
          refine ⟨[], r :: t, r :: t', ?_, ?_, ?_⟩
          · rw [show splitRuns p (c :: c2 :: cs2) = [] :: splitRuns p (c2 :: cs2) from by
              simp [splitRuns, hpc, hpc2]]
            rw [hr]
          · rw [show splitEach p (c :: c2 :: cs2) = [] :: splitEach p (c2 :: cs2) from by
              simp [splitEach, hpc]]
            rw [he]
          · rw [length_filter_cons, length_filter_cons, hc]
    | false =>
      refine ⟨c :: r, t, t', ?_, ?_, hc⟩
      · rw [splitRuns_cons_neg p cs hpc, hr]
      · rw [splitEach_cons_neg p cs hpc, he]

/-- The count computed by the code equals the count over the
specification-side segmentation, for every character list. -/
lemma count_splitRuns_eq_splitEach (l : List Char) :
    ((splitRuns isTerminatorChar l).filter nonblank).length
      = ((splitEach isTerminatorChar l).filter nonblank).length := by
  obtain ⟨r, t, t', hr, he, hc⟩ := splitRuns_splitEach isTerminatorChar l
  rw [hr, he, length_filter_cons, length_filter_cons, hc]

lemma countTokens_cons_nonspace {c : Char} (cs : List Char) (h : isPySpace c = false) :
    countTokens (c :: cs) true = 1 + countTokens (c :: cs) false := by
  simp [countTokens, h]

lemma pySplitWs_cons_space {c : Char} (cs : List Char) (h : isPySpace c = true) :
    pySplitWs (c :: cs) = pySplitWs cs := by
  cases cs with
  | nil => simp [pySplitWs, h]
  | cons c2 cs2 => simp [pySplitWs, h]

/-- The number of tokens returned by `str.split()` equals the number of
token-start positions counted by the left-to-right scan. -/
lemma pySplitWs_length : ∀ l : List Char, (pySplitWs l).length = countTokens l true := by
  intro l
  induction l with
  | nil => rfl
  | cons c cs ih =>
    cases hpc : isPySpace c with
    | true =>
      rw [pySplitWs_cons_space cs hpc, ih]
      simp [countTokens, hpc]
    | false =>
      cases cs with
      | nil => simp [pySplitWs, countTokens, hpc]
      | cons c2 cs2 =>
        cases hpc2 : isPySpace c2 with
        | true =>
          rw [show pySplitWs (c :: c2 :: cs2) = [c] :: pySplitWs (c2 :: cs2) from by
            simp [pySplitWs, hpc, hpc2]]
          have hct : countTokens (c :: c2 :: cs2) true = 1 + countTokens cs2 true := by
            simp [countTokens, hpc, hpc2]
          have hct2 : countTokens (c2 :: cs2) true = countTokens cs2 true := by
            simp [countTokens, hpc2]
          rw [List.length_cons, ih, hct, hct2]
          omega
        | false =>
          cases hps : pySplitWs (c2 :: cs2) with
          | nil =>
            exfalso
            rw [hps] at ih
            simp [countTokens, hpc2] at ih
            omega
          | cons r rs =>
            rw [hps] at ih
            rw [show pySplitWs (c :: c2 :: cs2) = (c :: r) :: rs from by
              simp [pySplitWs, hpc, hpc2, hps]]
            simp [countTokens, hpc, hpc2] at ih ⊢
            omega

/-! ## client.py: schema translation -/

/-- One property of an MCP input schema: the dictionary stored under a
parameter name, of which `mcp_tool_to_gemini_function` reads the keys
`type` and `description` (both may be absent). -/
structure ParamSchema where
  type? : Option String
  description? : Option String
deriving DecidableEq, Repr

/-- The `inputSchema` dictionary of an MCP tool, restricted to the keys the
translator reads: `properties` (an ordered name-to-schema mapping) and
`required` (a list of parameter names); either may be absent. -/
structure InputSchema where
  properties? : Option (List (String × ParamSchema))
  required? : Option (List String)
deriving DecidableEq, Repr

/-- An MCP tool descriptor as consumed by the translator: `name`,
`description` (may be `None`) and `inputSchema` (may be `None`). -/
structure MCPTool where
  name : String
  description : Option String
  inputSchema : Option InputSchema
deriving DecidableEq, Repr

/-- A property definition inside a Gemini `FunctionDeclaration`. -/
structure PropDef where
  type : String
  description : String
deriving DecidableEq, Repr

/-- The Gemini `FunctionDeclaration` built by the translator; `paramType`
is the `type` field of the `parameters` dictionary, always `OBJECT`. -/
structure FunctionDeclaration where
  name : String
  description : String
  paramType : String
  paramProperties : List (String × PropDef)
  paramRequired : List String
deriving DecidableEq, Repr

/-- The `if`/`elif` chain of `mcp_tool_to_gemini_function` mapping a
declared parameter type to the Gemini vocabulary, with default `STRING`. -/
def mapParamType (schemaType : Option String) : String :=
  if schemaType = some "number" then "NUMBER"
  else if schemaType = some "integer" then "INTEGER"
  else if schemaType = some "boolean" then "BOOLEAN"
  else if schemaType = some "string" then "STRING"
  else if schemaType = some "array" then "ARRAY"
  else if schemaType = some "object" then "OBJECT"
  else "STRING"

/-- The body of the per-parameter loop: `prop_definition`. -/
def translateParam (ps : ParamSchema) : PropDef :=
  { type := mapParamType ps.type?, description := ps.description?.getD "" }

/-- The guarded block of `mcp_tool_to_gemini_function` computing the pair
`(properties, required)`. The guard
`if mcp_tool.inputSchema and 'properties' in mcp_tool.inputSchema` is
modelled by the nested match: the loop body and the read of `required`
run only when the schema is present and has a `properties` key (an empty
dictionary without `properties` fails the guard the same way); in every
other case both variables keep their initial empty values. -/
def translateSchema : Option InputSchema → List (String × PropDef) × List String
  | some s =>
    match s.properties? with
    | some props =>
      (props.map (fun nmSch => (nmSch.1, translateParam nmSch.2)), s.required?.getD [])
    | none => ([], [])
  | none => ([], [])

/-- Embedding of `client.py`, `mcp_tool_to_gemini_function`. -/
def mcp_tool_to_gemini_function (t : MCPTool) : FunctionDeclaration :=
  { name := t.name
    description := t.description.getD ""
    paramType := "OBJECT"
    paramProperties := (translateSchema t.inputSchema).1
    paramRequired := (translateSchema t.inputSchema).2 }

/-! ## client.py: tool list preparation -/

/-- The Gemini `Tool` wrapper holding the translated declarations. -/
structure GeminiTool where
  function_declarations : List FunctionDeclaration
deriving DecidableEq, Repr

/-- Step 7 of `main`: wrap the translated functions in a single
`GeminiTool`, or keep the list empty when there are no functions. -/
def buildGeminiTools (fns : List FunctionDeclaration) : List GeminiTool :=
  if fns.isEmpty then [] else [{ function_declarations := fns }]

/-- The argument `tools=gemini_tools_list if gemini_tools_list else None`
passed to both `send_message_async` calls: `none` when the list is empty. -/
def toolsArgOf (l : List GeminiTool) : Option (List GeminiTool) :=
  if l.isEmpty then none else some l

/-- Step 6 of `main`: `available_mcp_tools` after the discovery block; on
an exception from `list_tools` the variable keeps its initial value `[]`. -/
def discoverTools : Except Unit (List MCPTool) → List MCPTool
  | Except.ok ts => ts
  | Except.error _ => []

/-! ## client.py: tool result serialization -/

/-- One item of `CallToolResult.content`: either a `TextContent` carrying
a string, or some other content type. -/
inductive ContentItem : Type
  | text (s : String)
  | other
deriving DecidableEq, Repr

/-- The MCP `CallToolResult` as read by the client: the ordered content
list and the `isError` flag. -/
structure CallToolResult where
  content : List ContentItem
  isError : Bool
deriving DecidableEq, Repr

/-- Sentinel used when the call failed and returned no content. -/
def serverFailMsg : String := "Tool execution failed on server."

/-- Initial value of `result_content_str`, kept when no parsable text
content is found on a result that does not carry the error flag. -/
def noContentMsg : String := "Error: Tool executed but no parsable content returned."

/-- Embedding of the result-processing block of `main` (steps 12 to 13):
`jp` abstracts the external `json` module, `jp t` being the pretty-printed
form `json.dumps(json.loads t, indent=2)` when `t` parses and `none` when
`json.loads` raises. A nonempty content list whose first item is text
yields that text (pretty-printed when it parses); a nonempty content list
whose first item is not text leaves the initial message in place; an empty
content list yields the sentinel exactly when `isError` is set. -/
def serializeResult (jp : String → Option String) (res : CallToolResult) : String :=
  match res.content with
  | ContentItem.text t :: _ =>
    match jp t with
    | some pretty => pretty
    | none => t
  | ContentItem.other :: _ => noContentMsg
  | [] => if res.isError then serverFailMsg else noContentMsg

/-! ## client.py: the interactive turn loop -/

/-- One part of a Gemini response: a function-call request or a text part.
Reading `.text` on a function-call part gives the protobuf default, the
empty string, so `partText` returns `""` there; reading `.function_call`
on a text part gives a falsy empty message, so `partFunctionCall` returns
`none` there. -/
inductive GPart : Type
  | functionCall (name : String) (args : List (String × String))
  | text (s : String)
deriving DecidableEq, Repr

/-- Truthy value of `response_part.function_call`. -/
def partFunctionCall : GPart → Option (String × List (String × String))
  | GPart.functionCall n a => some (n, a)
  | GPart.text _ => none

/-- Value of `response_part.text` (empty string on a function-call part). -/
def partText : GPart → String
  | GPart.text s => s
  | GPart.functionCall _ _ => ""

/-- The outcomes of the externally supplied operations of one turn, given
to the turn function as data: the first `send_message_async` (a Gemini
response, as its list of parts, or a raised exception), the
`mcp_session.call_tool` call, and the second `send_message_async`. Fields
are ignored when the control flow does not reach the call they model. -/
structure TurnEnv where
  resp1 : Except Unit (List GPart)
  toolResult : Except Unit CallToolResult
  resp2 : Except Unit (List GPart)

/-- The externally observable events of one turn, in order: the messages
sent to Gemini (with the `tools` argument actually attached) and the lines
printed for the user. -/
inductive Output : Type
  | modelCall1 (tools : Option (List GeminiTool))
  | llmText (s : String)
  | unexpectedEmpty
  | toolInvoked (name : String) (args : List (String × String))
  | toolApology
  | modelCall2 (name : String) (payload : String) (tools : Option (List GeminiTool))
  | noFinalResponse
  | modelApology
  | listToolsError
deriving DecidableEq, Repr

/-- Embedding of the body of the `while` loop of `main` for one non-empty,
non-quit user query (steps 10 to 14 of `client.py`). The first model call
is always issued; an exception from it is caught by the per-turn handler,
which prints the generic apology. A function-call part triggers exactly
one `call_tool`; an exception from `call_tool` or from the second model
call is caught by the inner handler, which prints the tool apology. A
host-reported error flag is not an exception: the result is serialized
and sent back in the second model call. -/
def runTurn (jp : String → Option String) (gtools : List GeminiTool)
    (env : TurnEnv) : List Output :=
  Output.modelCall1 (toolsArgOf gtools) ::
    match env.resp1 with
    | Except.error _ => [Output.modelApology]
    | Except.ok parts =>
      match parts.head? with
      | none => [Output.unexpectedEmpty]
      | some part =>
        match partFunctionCall part with
        | some (nm, args) =>
          Output.toolInvoked nm args ::
            (match env.toolResult with
             | Except.error _ => [Output.toolApology]
             | Except.ok res =>
               Output.modelCall2 nm (serializeResult jp res) (toolsArgOf gtools) ::
                 (match env.resp2 with
                  | Except.error _ => [Output.toolApology]
                  | Except.ok parts2 =>
                    match parts2.head? with
                    | none => [Output.noFinalResponse]
                    | some p2 =>
                      if partText p2 = "" then [Output.noFinalResponse]
                      else [Output.llmText (partText p2)]))
        | none =>
          if partText part = "" then [Output.unexpectedEmpty]
          else [Output.llmText (partText part)]

/-- ASCII `str.lower()`, used by the quit test of the loop. -/
def pyLower (s : String) : String :=
  String.mk (s.toList.map Char.toLower)

/-- Embedding of the `while True` loop of `main`: each element of the
input list is one line read by `input("> ")` together with the outcomes
of the external calls of that turn. `quit` (case-insensitively) breaks
the loop; an empty line is skipped; any other line runs one full turn and
the loop then returns to awaiting input, whatever the turn outcomes were. -/
def runSession (jp : String → Option String) (gtools : List GeminiTool) :
    List (String × TurnEnv) → List Output
  | [] => []
  | (q, env) :: rest =>
    if pyLower q = "quit" then []
    else if q = "" then runSession jp gtools rest
    else runTurn jp gtools env ++ runSession jp gtools rest

/-- The log line printed by the discovery block on an exception. -/
def setupLog : Except Unit (List MCPTool) → List Output
  | Except.ok _ => []
  | Except.error _ => [Output.listToolsError]

/-- Steps 6 to 9 of `main` in one function: discover the tools (errors
degrade to the empty list), translate them, and run the interactive loop. -/
def runFullSession (jp : String → Option String)
    (enum : Except Unit (List MCPTool)) (inputs : List (String × TurnEnv)) : List Output :=
  setupLog enum ++
    runSession jp
      (buildGeminiTools ((discoverTools enum).map mcp_tool_to_gemini_function)) inputs

/-! ## Claims -/

/-- A concrete instance of the abstracted json transform, for witnesses
and counterexamples: a parse that always fails, as `json.loads` does on
every payload used in them. -/
def jpNone : String → Option String := fun _ => none

/-- Claim C3: for every input string, `count_sentences` equals the number
of segments that are non-empty after trimming whitespace, segments being
produced by splitting on maximal runs of characters from the terminator
set; and the three quoted examples evaluate as stated. The segment count
of the spec is formalised by `countSentencesSpec`, whose single-character
segmentation provably yields the same non-blank count as the maximal-run
segmentation of the code. -/
theorem claim3_count_sentences :
    (∀ text : String, count_sentences text = countSentencesSpec text) ∧
    count_sentences "Hello. How are you? Fine!" = 3 ∧
    count_sentences "..." = 0 ∧
    count_sentences "No terminator" = 1 := by
  refine ⟨fun text => count_splitRuns_eq_splitEach text.toList, by decide, by decide, by decide⟩

/-- Claim C4: for every input string, `analyze_text` returns the number
of whitespace-delimited tokens (characterised independently by the
token-start scan `countTokens`) as `word_count` and the full character
count including whitespace as `char_count`; and the two quoted examples
evaluate as stated. -/
theorem claim4_analyze_text :
    (∀ text : String,
       (analyze_text text).word_count = countTokens text.toList true ∧
       (analyze_text text).char_count = text.length) ∧
    analyze_text "" = ⟨0, 0⟩ ∧
    analyze_text "a b  c" = ⟨3, 6⟩ := by
  refine ⟨fun text => ⟨pySplitWs_length text.toList, rfl⟩, by decide, by decide⟩

/-- An MCP tool whose input schema carries a `required` list but no
`properties` key: the guard of the translator skips the whole block, so
the required list is dropped. -/
def reqOnlyTool : MCPTool :=
  { name := "t"
    description := none
    inputSchema := some { properties? := none, required? := some ["x"] } }

/-- Claim C1 is false as stated: at `reqOnlyTool` the required list
`["x"]` is present in the input schema, yet the resulting declaration
carries the empty required list, because `mcp_tool_to_gemini_function`
reads `required` only under the guard that also demands a `properties`
key. -/
theorem claim1_counterexample :
    reqOnlyTool.inputSchema
      = some { properties? := none, required? := some ["x"] } ∧
    (mcp_tool_to_gemini_function reqOnlyTool).paramRequired = [] ∧
    (mcp_tool_to_gemini_function reqOnlyTool).paramRequired ≠ ["x"] :=
  ⟨rfl, rfl, by decide⟩

/-- Claim C1 as amended: the translator is total; each declared parameter
type is mapped by the fixed lookup with default `STRING`; a missing
description becomes the empty string; the required list is copied
verbatim when the schema also has a `properties` key, and is empty in
every other case (schema absent, or schema without a `properties` key,
even if it carries a `required` list). -/
theorem claim1_amended : ∀ t : MCPTool,
    (mcp_tool_to_gemini_function t).name = t.name ∧
    (mcp_tool_to_gemini_function t).description = t.description.getD "" ∧
    (mcp_tool_to_gemini_function t).paramType = "OBJECT" ∧
    (∀ s props n psch, t.inputSchema = some s → s.properties? = some props →
        (n, psch) ∈ props →
        (n, PropDef.mk (mapParamType psch.type?) (psch.description?.getD ""))
          ∈ (mcp_tool_to_gemini_function t).paramProperties) ∧
    (∀ s props, t.inputSchema = some s → s.properties? = some props →
        (mcp_tool_to_gemini_function t).paramRequired = s.required?.getD []) ∧
    (∀ s, t.inputSchema = some s → s.properties? = none →
        (mcp_tool_to_gemini_function t).paramProperties = [] ∧
        (mcp_tool_to_gemini_function t).paramRequired = []) ∧
    (t.inputSchema = none →
        (mcp_tool_to_gemini_function t).paramProperties = [] ∧
        (mcp_tool_to_gemini_function t).paramRequired = []) ∧
    (mapParamType (some "number") = "NUMBER" ∧ mapParamType (some "integer") = "INTEGER" ∧
     mapParamType (some "boolean") = "BOOLEAN" ∧ mapParamType (some "string") = "STRING" ∧
     mapParamType (some "array") = "ARRAY" ∧ mapParamType (some "object") = "OBJECT" ∧
     mapParamType none = "STRING") ∧
    (∀ ty : Option String, ty ≠ some "number" → ty ≠ some "integer" → ty ≠ some "boolean" →
        ty ≠ some "string" → ty ≠ some "array" → ty ≠ some "object" →
        mapParamType ty = "STRING") := by
  intro t
  refine ⟨rfl, rfl, rfl, ?_, ?_, ?_, ?_, by decide, ?_⟩
  · intro s props n psch hs hp hmem
    have hpp : (mcp_tool_to_gemini_function t).paramProperties
        = props.map (fun nmSch => (nmSch.1, translateParam nmSch.2)) := by
      simp [mcp_tool_to_gemini_function, translateSchema, hs, hp]
    rw [hpp]
    simpa [translateParam] using
      List.mem_map_of_mem (fun nmSch => (nmSch.1, translateParam nmSch.2)) hmem
  · intro s props hs hp
    simp [mcp_tool_to_gemini_function, translateSchema, hs, hp]
  · intro s hs hp
    constructor <;> simp [mcp_tool_to_gemini_function, translateSchema, hs, hp]
  · intro hs
    constructor <;> simp [mcp_tool_to_gemini_function, translateSchema, hs]
  · intro ty h1 h2 h3 h4 h5 h6
    simp [mapParamType, h1, h2, h3, h4, h5, h6]

/-- A well-formed tool with one string parameter, used to exercise the
amended claim C1 at a concrete input. -/
def textParamTool : MCPTool :=
  { name := "count_sentences"
    description := some "Counts sentences"
    inputSchema := some
      { properties? := some [("text", { type? := some "string", description? := some "The text" })]
        required? := some ["text"] } }

/-- Witness for the amended claim C1 at `textParamTool`. -/
theorem claim1_witness :
    (textParamTool.inputSchema = some
        { properties? := some [("text", { type? := some "string", description? := some "The text" })]
          required? := some ["text"] } ∧
     ("text", ({ type? := some "string", description? := some "The text" } : ParamSchema))
       ∈ [("text", ({ type? := some "string", description? := some "The text" } : ParamSchema))]) ∧
    ("text", PropDef.mk "STRING" "The text")
      ∈ (mcp_tool_to_gemini_function textParamTool).paramProperties ∧
    (mcp_tool_to_gemini_function textParamTool).paramRequired = ["text"] :=
  ⟨⟨rfl, by decide⟩,
   (claim1_amended textParamTool).2.2.2.1 _ _ "text"
     { type? := some "string", description? := some "The text" } rfl rfl (by decide),
   (claim1_amended textParamTool).2.2.2.2.1 _ _ rfl rfl⟩

/-- An environment in which Gemini requests a tool call, the host returns
a result carrying the error flag (with empty content), and the second
model call answers with text. -/
def errFlagEnv : TurnEnv :=
  { resp1 := Except.ok [GPart.functionCall "count_sentences" []]
    toolResult := Except.ok { content := [], isError := true }
    resp2 := Except.ok [GPart.text "done"] }

/-- Claim C2 is false as stated: in `errFlagEnv` the host reports the
error flag (`isError = true`), yet the turn performs the second model
call (sending the sentinel payload) and prints no apology at all; only a
transport exception takes the apology path. -/
theorem claim2_counterexample :
    (CallToolResult.mk [] true).isError = true ∧
    Output.modelCall2 "count_sentences" serverFailMsg none ∈ runTurn jpNone [] errFlagEnv ∧
    Output.toolApology ∉ runTurn jpNone [] errFlagEnv ∧
    Output.modelApology ∉ runTurn jpNone [] errFlagEnv :=
  ⟨rfl, by decide, by decide, by decide⟩

/-- Claim C2 as amended: when the model requests a tool call, a transport
exception from `call_tool` ends the turn with the user-visible apology and
no second model call, while a returned result — error flag set or not —
is serialized and sent back to the model in the second call. -/
theorem claim2_amended : ∀ (jp : String → Option String) (g : List GeminiTool)
    (env : TurnEnv) (nm : String) (args : List (String × String)) (ps : List GPart),
    env.resp1 = Except.ok (GPart.functionCall nm args :: ps) →
    ((env.toolResult = Except.error () →
        runTurn jp g env
          = [Output.modelCall1 (toolsArgOf g), Output.toolInvoked nm args,
             Output.toolApology]) ∧
     (∀ res, env.toolResult = Except.ok res →
        Output.modelCall2 nm (serializeResult jp res) (toolsArgOf g) ∈ runTurn jp g env)) := by
  intro jp g env nm args ps h1
  obtain ⟨r1, tr, r2⟩ := env
  simp only at h1
  subst h1
  constructor
  · intro h2
    simp only at h2
    subst h2
    simp [runTurn, partFunctionCall]
  · intro res h2
    simp only at h2
    subst h2
    simp only [runTurn, partFunctionCall, List.head?]
    exact List.mem_cons_of_mem _ (List.mem_cons_of_mem _ (List.mem_cons_self _ _))

/-- Witness for the amended claim C2 at `errFlagEnv`. -/
theorem claim2_witness :
    (errFlagEnv.resp1 = Except.ok [GPart.functionCall "count_sentences" []] ∧
     errFlagEnv.toolResult = Except.ok (CallToolResult.mk [] true)) ∧
    Output.modelCall2 "count_sentences"
        (serializeResult jpNone (CallToolResult.mk [] true)) (toolsArgOf [])
      ∈ runTurn jpNone [] errFlagEnv :=
  ⟨⟨rfl, rfl⟩, (claim2_amended jpNone [] errFlagEnv _ _ _ rfl).2 _ rfl⟩

/-- Claim C5 is false as stated: a failed invocation (error flag set)
whose first content item is text is serialized from that text, not
replaced by the sentinel. -/
theorem claim5_counterexample :
    (CallToolResult.mk [ContentItem.text "oops"] true).isError = true ∧
    serializeResult jpNone (CallToolResult.mk [ContentItem.text "oops"] true) = "oops" ∧
    serializeResult jpNone (CallToolResult.mk [ContentItem.text "oops"] true) ≠ serverFailMsg :=
  ⟨rfl, rfl, by decide⟩

/-- Claim C5 as amended: a textual first content item is pretty-printed
when it parses as JSON and passed through literally otherwise, regardless
of the error flag; the sentinel replaces the payload only when a failed
invocation returns an empty content list; a nonempty content list whose
first item is not text yields the default no-parsable-content message. -/
theorem claim5_amended : ∀ (jp : String → Option String) (res : CallToolResult),
    (∀ t rest, res.content = ContentItem.text t :: rest →
        serializeResult jp res = (jp t).getD t) ∧
    (∀ rest, res.content = ContentItem.other :: rest →
        serializeResult jp res = noContentMsg) ∧
    (res.content = [] → res.isError = true → serializeResult jp res = serverFailMsg) ∧
    (res.content = [] → res.isError = false → serializeResult jp res = noContentMsg) := by
  intro jp res
  obtain ⟨c, e⟩ := res
  refine ⟨?_, ?_, ?_, ?_⟩
  · intro t rest hc
    simp only at hc
    subst hc
    cases hjp : jp t <;> simp [serializeResult, hjp]
  · intro rest hc
    simp only at hc
    subst hc
    rfl
  · intro hc he
    simp only at hc he
    subst hc; subst he
    rfl
  · intro hc he
    simp only at hc he
    subst hc; subst he
    rfl

/-- Witness for the amended claim C5: a failed result with a textual
payload that does not parse as JSON passes the text through. -/
theorem claim5_witness :
    (CallToolResult.mk [ContentItem.text "5"] true).content = [ContentItem.text "5"] ∧
    serializeResult jpNone (CallToolResult.mk [ContentItem.text "5"] true)
      = (jpNone "5").getD "5" :=
  ⟨rfl, (claim5_amended jpNone (CallToolResult.mk [ContentItem.text "5"] true)).1 "5" [] rfl⟩

/-- Claim C10: for a successful invocation only the first content item is
serialized — the result is the same as for a content list holding the
first item alone — and an empty content list or a non-text first item
yields the fixed no-parsable-content message. -/
theorem claim10_first_item : ∀ (jp : String → Option String) (res : CallToolResult),
    res.isError = false →
    ((res.content = [] → serializeResult jp res = noContentMsg) ∧
     (∀ rest, res.content = ContentItem.other :: rest →
        serializeResult jp res = noContentMsg) ∧
     (∀ t rest, res.content = ContentItem.text t :: rest →
        serializeResult jp res
          = serializeResult jp (CallToolResult.mk [ContentItem.text t] false))) := by
  intro jp res he
  obtain ⟨c, e⟩ := res
  simp only at he
  subst he
  refine ⟨?_, ?_, ?_⟩
  · intro hc
    simp only at hc
    subst hc
    rfl
  · intro rest hc
    simp only at hc
    subst hc
    rfl
  · intro t rest hc
    simp only at hc
    subst hc
    rfl

/-- Witness for claim C10: the second content item is ignored. -/
theorem claim10_witness :
    (CallToolResult.mk [ContentItem.text "5", ContentItem.other] false).isError = false ∧
    serializeResult jpNone (CallToolResult.mk [ContentItem.text "5", ContentItem.other] false)
      = serializeResult jpNone (CallToolResult.mk [ContentItem.text "5"] false) :=
  ⟨rfl,
   ((claim10_first_item jpNone
       (CallToolResult.mk [ContentItem.text "5", ContentItem.other] false) rfl).2.2
     "5" [ContentItem.other] rfl)⟩

/-- Claim C6: with zero discovered tools, the first model call of every
turn is issued with the `tools` argument absent (`none`), and more
generally the `tools` argument is `none` exactly when the discovered tool
list is empty — never an empty-but-present list. -/
theorem claim6_no_tools_none :
    (∀ (jp : String → Option String) (env : TurnEnv),
       (runTurn jp (buildGeminiTools (([] : List MCPTool).map mcp_tool_to_gemini_function))
           env).head?
         = some (Output.modelCall1 none)) ∧
    (∀ ts : List MCPTool,
       toolsArgOf (buildGeminiTools (ts.map mcp_tool_to_gemini_function)) = none ↔ ts = []) := by
  constructor
  · intro jp env
    simp [runTurn, buildGeminiTools, toolsArgOf]
  · intro ts
    cases ts with
    | nil => simp [buildGeminiTools, toolsArgOf]
    | cons t ts' => simp [buildGeminiTools, toolsArgOf]

/-- An environment whose first model call raises, exercising the per-turn
exception handler. -/
def crashEnv : TurnEnv :=
  { resp1 := Except.error ()
    toolResult := Except.ok { content := [], isError := false }
    resp2 := Except.ok [] }

/-- Claim C7: the body of one turn is a total function of the outcomes of
its external calls — every exception outcome is handled inside the turn —
so for any non-quit, non-empty input line the session processes that turn
and then continues with the remaining input lines unchanged, and the turn
always prints something (the handlers report rather than stay silent). -/
theorem claim7_turn_resilient : ∀ (jp : String → Option String) (g : List GeminiTool)
    (q : String) (env : TurnEnv) (rest : List (String × TurnEnv)),
    pyLower q ≠ "quit" → q ≠ "" →
    runSession jp g ((q, env) :: rest) = runTurn jp g env ++ runSession jp g rest ∧
    runTurn jp g env ≠ [] := by
  intro jp g q env rest h1 h2
  constructor
  · simp [runSession, h1, h2]
  · simp [runTurn]

/-- Witness for claim C7: after a turn whose model call raised, the quoted
session equation holds and the turn produced output. -/
theorem claim7_witness :
    (pyLower "Hello" ≠ "quit" ∧ "Hello" ≠ "") ∧
    (runSession jpNone [] [("Hello", crashEnv)]
        = runTurn jpNone [] crashEnv ++ runSession jpNone [] [] ∧
     runTurn jpNone [] crashEnv ≠ []) :=
  ⟨⟨by decide, by decide⟩,
   claim7_turn_resilient jpNone [] "Hello" crashEnv [] (by decide) (by decide)⟩

/-- Test for the one output kind that marks a tool dispatch. -/
def isToolCallEvent : Output → Bool
  | Output.toolInvoked _ _ => true
  | _ => false

/-- Claim C8: every turn dispatches at most one tool call, and when the
second model response itself contains a function-call request the turn
ends with the no-final-response notice — the full output list shows no
second dispatch. -/
theorem claim8_single_dispatch : ∀ (jp : String → Option String) (g : List GeminiTool)
    (env : TurnEnv),
    ((runTurn jp g env).countP isToolCallEvent ≤ 1) ∧
    (∀ nm args ps res nm2 args2 ps2,
       env.resp1 = Except.ok (GPart.functionCall nm args :: ps) →
       env.toolResult = Except.ok res →
       env.resp2 = Except.ok (GPart.functionCall nm2 args2 :: ps2) →
       runTurn jp g env
         = [Output.modelCall1 (toolsArgOf g), Output.toolInvoked nm args,
            Output.modelCall2 nm (serializeResult jp res) (toolsArgOf g),
            Output.noFinalResponse]) := by
  intro jp g env
  constructor
  · obtain ⟨r1, tr, r2⟩ := env
    cases r1 with
    | error e => simp [runTurn, isToolCallEvent]
    | ok parts =>
      cases parts with
      | nil => simp [runTurn, isToolCallEvent]
      | cons part ps =>
        cases part with
        | text s =>
          by_cases hs : s = "" <;>
            simp [runTurn, partFunctionCall, partText, hs, isToolCallEvent]
        | functionCall nm args =>
          cases tr with
          | error e => simp [runTurn, partFunctionCall, isToolCallEvent]
          | ok res =>
            cases r2 with
            | error e => simp [runTurn, partFunctionCall, isToolCallEvent]
            | ok parts2 =>
              cases parts2 with
              | nil => simp [runTurn, partFunctionCall, isToolCallEvent]
              | cons p2 ps2 =>
                by_cases h2 : partText p2 = "" <;>
                  simp [runTurn, partFunctionCall, h2, isToolCallEvent]
  · intro nm args ps res nm2 args2 ps2 h1 h2 h3
    obtain ⟨r1, tr, r2⟩ := env
    simp only at h1 h2 h3
    subst h1; subst h2; subst h3
    simp [runTurn, partFunctionCall, partText]

/-- Environment in which the second model response requests another tool
call, used to exercise claim C8 at a concrete input. -/
def doubleCallEnv : TurnEnv :=
  { resp1 := Except.ok [GPart.functionCall "analyze_text" []]
    toolResult := Except.ok { content := [], isError := false }
    resp2 := Except.ok [GPart.functionCall "count_sentences" []] }

/-- Witness for claim C8 at `doubleCallEnv`. -/
theorem claim8_witness :
    (doubleCallEnv.resp1 = Except.ok [GPart.functionCall "analyze_text" []] ∧
     doubleCallEnv.toolResult = Except.ok (CallToolResult.mk [] false) ∧
     doubleCallEnv.resp2 = Except.ok [GPart.functionCall "count_sentences" []]) ∧
    runTurn jpNone [] doubleCallEnv
      = [Output.modelCall1 (toolsArgOf []), Output.toolInvoked "analyze_text" [],
         Output.modelCall2 "analyze_text"
           (serializeResult jpNone (CallToolResult.mk [] false)) (toolsArgOf []),
         Output.noFinalResponse] :=
  ⟨⟨rfl, rfl, rfl⟩,
   (claim8_single_dispatch jpNone [] doubleCallEnv).2 _ _ _ _ _ _ _ rfl rfl rfl⟩

/-- Claim C9: a failing tool enumeration is logged and the session runs
exactly as a session whose enumeration returned zero tools — the degraded
tool-less mode — processing the same inputs; enumeration failure reduces
the discovered tool set to the empty list rather than ending the process. -/
theorem claim9_enum_degraded : ∀ (jp : String → Option String) (e : Unit)
    (inputs : List (String × TurnEnv)),
    runFullSession jp (Except.error e) inputs
      = Output.listToolsError :: runFullSession jp (Except.ok []) inputs ∧
    discoverTools (Except.error e) = [] := by
  intro jp e inputs
  exact ⟨rfl, rfl⟩
